import Mathlib

/-!
Shallow embedding of `src/API.py` (ReViews backend).

Conventions of the embedding:
* timestamps are `Int` (UTC epoch seconds); `datetime` comparisons become `Int` comparisons;
* the Mongo collection is a `DB`: an insertion-ordered list of stored documents plus a
  counter from which fresh `ObjectId` strings (24 hex characters) are generated;
* external services are oracles passed in as functions: the Nominatim geocoder is
  `geo : String → List GeoEntry` (the parsed JSON array of results), the Cloudinary
  uploader is `uploader : UFile → Option String` (the `secure_url` field of the
  upload result, `none` when absent);
* `request.session` is a `Session` record of `Option`-valued entries; Python
  truthiness of an optional string (`not token`) is `strTruthy`;
* a raised `HTTPException(status, detail)` is `Except.error (HttpErr.mk status detail)`;
* handlers return their response together with the updated state and, for
  `create_review`, the ordered trace of external calls performed (`Effect`).
-/

/-- Python truthiness of an optional string: `None` and `""` are falsy. -/
def strTruthy : Option String → Bool
  | none => false
  | some s => s ≠ ""

/-- An `HTTPException(status_code, detail)`; both fields are returned to the client. -/
structure HttpErr where
  status : Nat
  detail : String
  deriving DecidableEq, Repr

/-- Status of a handler outcome: `some status` when an `HTTPException` was raised. -/
def errStatus {α : Type} : Except HttpErr α → Option Nat
  | .error e => some e.status
  | .ok _ => none

/-- User claims stored in the session by `login` (`user_info` dict); each value of
`id_info.get(...)` may be absent. -/
structure UserClaims where
  google_id : Option String
  email : Option String
  name : Option String
  picture : Option String
  deriving DecidableEq, Repr

/-- The session dict: keys `user`, `token`, `token_iat`, `token_exp`.
`token_iat`/`token_exp` model `parse_session_datetime` of the stored value:
`none` stands for an absent entry or an unparseable string. -/
structure Session where
  user : Option UserClaims
  token : Option String
  token_iat : Option Int
  token_exp : Option Int
  deriving DecidableEq, Repr

/-- `request.session.clear()` leaves the empty session dict. -/
def emptySession : Session := ⟨none, none, none, none⟩

/-- `get_session_user` (API.py lines 64-69): if a stored expiry exists and
`now >= token_exp`, clear the session and return `None`; otherwise return the
stored user (session untouched). Returns (result, session after the call). -/
def get_session_user (s : Session) (now : Int) : Option UserClaims × Session :=
  match s.token_exp with
  | some e => if now ≥ e then (none, emptySession) else (s.user, s)
  | none => (s.user, s)

/-- The credential bundle `require_user` returns: `{**user, token, iat, exp}`. -/
structure Bundle where
  google_id : Option String
  email : Option String
  name : Option String
  picture : Option String
  token : Option String
  iat : Option Int
  exp : Option Int
  deriving DecidableEq, Repr

/-- `require_user` (API.py lines 72-89): 401 `"No autenticado"` when the session
user or token is falsy; 401 `"Token OAuth caducado"` (clearing the session) when a
stored expiry exists and `now >= token_exp`; otherwise the credential bundle.
Returns (result, session after the call). -/
def require_user (s : Session) (now : Int) : Except HttpErr Bundle × Session :=
  match s.user with
  | none => (.error ⟨401, "No autenticado"⟩, s)
  | some u =>
    if ¬ strTruthy s.token then (.error ⟨401, "No autenticado"⟩, s)
    else
      match s.token_exp with
      | some e =>
        if now ≥ e then (.error ⟨401, "Token OAuth caducado"⟩, emptySession)
        else (.ok ⟨u.google_id, u.email, u.name, u.picture, s.token, s.token_iat, some e⟩, s)
      | none => (.ok ⟨u.google_id, u.email, u.name, u.picture, s.token, s.token_iat, none⟩, s)

/-- One entry of the Nominatim JSON result array: its `lat`/`lon` fields,
already read as numbers (`float(...)` in the source). -/
structure GeoEntry where
  lat : ℚ
  lon : ℚ
  deriving DecidableEq, Repr

/-- `geocode_address` (API.py lines 92-103): `(None, None)` when the provider
returns zero results, otherwise the first result's coordinates. -/
def geocode_address (geo : String → List GeoEntry) (address : String) :
    Option ℚ × Option ℚ :=
  match geo address with
  | [] => (none, none)
  | e :: _ => (some e.lat, some e.lon)

/-- An uploaded file handle as the loop in `upload_images` sees it: its
`filename` (`""` models a falsy filename) and its raw content. -/
structure UFile where
  filename : String
  data : String
  deriving DecidableEq, Repr

/-- The files accepted by the `upload_images` loop: entries that are truthy
(`not file` skips `None`) and have a truthy filename. -/
def acceptedFiles : List (Option UFile) → List UFile
  | [] => []
  | none :: rest => acceptedFiles rest
  | some f :: rest =>
    if f.filename = "" then acceptedFiles rest else f :: acceptedFiles rest

/-- The loop body of `upload_images`: skip falsy files and falsy filenames,
upload the rest, and keep each truthy `secure_url` in order. -/
def uploadLoop (uploader : UFile → Option String) : List (Option UFile) → List String
  | [] => []
  | none :: rest => uploadLoop uploader rest
  | some f :: rest =>
    if f.filename = "" then uploadLoop uploader rest
    else
      match uploader f with
      | some u => if u = "" then uploadLoop uploader rest else u :: uploadLoop uploader rest
      | none => uploadLoop uploader rest

/-- `upload_images` (API.py lines 136-152): `[]` for a falsy collection
(`None` or the empty list), otherwise the loop over the entries. -/
def upload_images (uploader : UFile → Option String)
    (files : Option (List (Option UFile))) : List String :=
  match files with
  | none => []
  | some fs => uploadLoop uploader fs

/-- The `review_doc` dict built by `create_review` (no `_id` yet). -/
structure ReviewDoc where
  name : String
  address : String
  latitude : Option ℚ
  longitude : Option ℚ
  rating : Int
  author_email : Option String
  author_name : Option String
  token : Option String
  token_issued_at : Option Int
  token_expires_at : Option Int
  images : List String
  created_at : Int
  deriving DecidableEq, Repr

/-- A document as stored in the collection: the generated `_id` plus the doc. -/
structure StoredReview where
  id : String
  doc : ReviewDoc
  deriving DecidableEq, Repr

/-- The Mongo collection: insertion-ordered documents and a counter from which
the next generated `ObjectId` string is derived. -/
structure DB where
  docs : List StoredReview
  nextId : Nat
  deriving DecidableEq, Repr

/-- The lowercase hex digit of `d % 16`. -/
def hexChar (d : Nat) : Char :=
  "0123456789abcdef".toList.getD (d % 16) '0'

/-- A character `bson.ObjectId` accepts in an id string: a hex digit. -/
def isHexChar (c : Char) : Bool :=
  ('0' ≤ c ∧ c ≤ '9') ∨ ('a' ≤ c ∧ c ≤ 'f') ∨ ('A' ≤ c ∧ c ≤ 'F')

/-- `ObjectId(s)` succeeds exactly on 24-character hex strings. -/
def isValidObjectId (s : String) : Bool :=
  s.length = 24 ∧ s.toList.all isHexChar

/-- The `ObjectId` string generated for the `n`-th insert: `n` in hex, padded
to the 24 characters `str(inserted_id)` has. -/
def objectIdOfNat (n : Nat) : String :=
  String.mk ((List.range 24).map fun i => hexChar (n / 16 ^ (23 - i)))

/-- `insert_one`: assign a fresh `ObjectId`, append the document, and return
`str(result.inserted_id)` with the new collection state. -/
def insert_one (db : DB) (doc : ReviewDoc) : String × DB :=
  let oid := objectIdOfNat db.nextId
  (oid, ⟨db.docs ++ [⟨oid, doc⟩], db.nextId + 1⟩)

/-- `find_one({"_id": ObjectId(oid)})`: the first stored document with that id. -/
def find_one (db : DB) (oid : String) : Option StoredReview :=
  db.docs.find? fun r => r.id = oid

/-- The dict `serialize_review` (API.py lines 106-121) builds from a stored doc. -/
structure Serialized where
  id : String
  name : String
  address : String
  latitude : Option ℚ
  longitude : Option ℚ
  rating : Int
  author_email : Option String
  author_name : Option String
  token : Option String
  token_issued_at : Option Int
  token_expires_at : Option Int
  images : List String
  created_at : Int
  deriving DecidableEq, Repr

/-- `serialize_review`: `str(doc["_id"])` plus the stored fields
(`doc.get("images", [])` is the stored list, always present in documents this
system writes). -/
def serialize_review (r : StoredReview) : Serialized :=
  ⟨r.id, r.doc.name, r.doc.address, r.doc.latitude, r.doc.longitude, r.doc.rating,
   r.doc.author_email, r.doc.author_name, r.doc.token, r.doc.token_issued_at,
   r.doc.token_expires_at, r.doc.images, r.doc.created_at⟩

/-- Insert `x` into a list already sorted by `created_at` descending. -/
def insertDesc (x : StoredReview) : List StoredReview → List StoredReview
  | [] => [x]
  | y :: ys => if y.doc.created_at ≤ x.doc.created_at then x :: y :: ys else y :: insertDesc x ys

/-- `find().sort("created_at", -1)`: the documents ordered by `created_at`
descending (stable insertion sort). -/
def sortDesc : List StoredReview → List StoredReview
  | [] => []
  | x :: xs => insertDesc x (sortDesc xs)

/-- The data the `GET /reviews` handler hands to the template, plus the HTTP
status of the response (a rendered template is a 200). -/
structure ListPage where
  status : Nat
  reviews : List Serialized
  selected_review : Option Serialized
  deriving DecidableEq, Repr

/-- `list_reviews` (API.py lines 201-231): serialize all documents newest-first;
if `selected` is truthy, resolve it against that in-memory list first, then fall
back to `find_one(ObjectId(selected))`, where an invalid id (the `ObjectId`
constructor raising) is swallowed into "no selection"; always render the page. -/
def list_reviews (db : DB) (selected : Option String) : ListPage :=
  let reviews := (sortDesc db.docs).map serialize_review
  let selected_review : Option Serialized :=
    if strTruthy selected then
      let sel := selected.getD ""
      match reviews.find? (fun r => r.id = sel) with
      | some r => some r
      | none =>
        if isValidObjectId sel then
          match find_one db sel with
          | some r => some (serialize_review r)
          | none => none
        else none
    else none
  ⟨200, reviews, selected_review⟩

/-- An external call performed by `create_review`, in program order. -/
inductive Effect where
  | geocode (address : String)
  | upload (filename : String)
  | insert
  deriving DecidableEq, Repr

/-- Outcome of `POST /reviews`: the response (redirect URL or error), the
collection afterwards, and the ordered trace of external calls. -/
structure CreateResult where
  response : Except HttpErr String
  db : DB
  effects : List Effect
  deriving Repr

/-- `create_review` (API.py lines 234-270): 400 for a rating outside `[0,5]`
before anything else; geocode, 400 when a coordinate is `None`; upload the
images; insert the document with `created_at := now`; redirect to
`/reviews?selected={id}`. -/
def create_review (name address : String) (rating : Int)
    (images : Option (List (Option UFile))) (user : Bundle)
    (geo : String → List GeoEntry) (uploader : UFile → Option String)
    (db : DB) (now : Int) : CreateResult :=
  if rating < 0 ∨ rating > 5 then
    ⟨.error ⟨400, "La valoración debe estar entre 0 y 5"⟩, db, []⟩
  else
    let latlon := geocode_address geo address
    if latlon.1 = none ∨ latlon.2 = none then
      ⟨.error ⟨400, "No se pudo geocodificar la dirección"⟩, db, [.geocode address]⟩
    else
      let uploaded_urls := upload_images uploader images
      let review_doc : ReviewDoc :=
        ⟨name, address, latlon.1, latlon.2, rating, user.email, user.name,
         user.token, user.iat, user.exp, uploaded_urls, now⟩
      let inserted := insert_one db review_doc
      ⟨.ok ("/reviews?selected=" ++ inserted.1), inserted.2,
       Effect.geocode address ::
         ((acceptedFiles (images.getD [])).map fun f => Effect.upload f.filename) ++
           [Effect.insert]⟩

/-- `get_review` (API.py lines 273-283): `ObjectId(review_id)` raising → 400;
no matching document → 404; otherwise the serialized review. -/
def get_review (review_id : String) (db : DB) : Except HttpErr Serialized :=
  if isValidObjectId review_id then
    match find_one db review_id with
    | some r => .ok (serialize_review r)
    | none => .error ⟨404, "Reseña no encontrada"⟩
  else .error ⟨400, "Identificador inválido"⟩

/-! ### Shared sample values (used by witnesses) -/

/-- A sample credential bundle, as `require_user` would return it. -/
def sampleUser : Bundle :=
  ⟨some "g-1", some "ada@example.com", some "Ada", none, some "tok", some 1, some 1000⟩

/-- A sample geocoder oracle: one result for every address. -/
def sampleGeo : String → List GeoEntry := fun _ => [⟨40, -3⟩]

/-- A sample uploader oracle: no `secure_url` in the result. -/
def sampleUploader : UFile → Option String := fun _ => none

/-! ### Theorems -/

/-- C2: for every integer rating submitted to `POST /reviews`, the request
succeeds only if `0 ≤ rating ≤ 5`, and any rating outside that range yields the
400 response of the range check. -/
theorem create_review_rating_bounds (name address : String) (rating : Int)
    (images : Option (List (Option UFile))) (user : Bundle)
    (geo : String → List GeoEntry) (uploader : UFile → Option String)
    (db : DB) (now : Int) :
    (∀ url, (create_review name address rating images user geo uploader db now).response
        = .ok url → 0 ≤ rating ∧ rating ≤ 5) ∧
    ((rating < 0 ∨ rating > 5) →
      (create_review name address rating images user geo uploader db now).response
        = .error ⟨400, "La valoración debe estar entre 0 y 5"⟩) := by
  by_cases hr : rating < 0 ∨ rating > 5
  · refine ⟨fun url h => ?_, fun _ => by simp [create_review, if_pos hr]⟩
    simp [create_review, if_pos hr] at h
  · exact ⟨fun url _ => by omega, fun h => absurd h hr⟩

/-- C2 witness: evaluated at ratings -1 and 6 (both 400) and at a successful
request with rating 4. -/
theorem create_review_rating_bounds_witness :
    (create_review "A" "B" (-1) none sampleUser sampleGeo sampleUploader ⟨[], 0⟩ 7).response
      = .error ⟨400, "La valoración debe estar entre 0 y 5"⟩ ∧
    (create_review "A" "B" 6 none sampleUser sampleGeo sampleUploader ⟨[], 0⟩ 7).response
      = .error ⟨400, "La valoración debe estar entre 0 y 5"⟩ ∧
    (0 : Int) ≤ 4 ∧ (4 : Int) ≤ 5 :=
  ⟨(create_review_rating_bounds "A" "B" (-1) none sampleUser sampleGeo sampleUploader
      ⟨[], 0⟩ 7).2 (by omega),
   (create_review_rating_bounds "A" "B" 6 none sampleUser sampleGeo sampleUploader
      ⟨[], 0⟩ 7).2 (by omega),
   (create_review_rating_bounds "A" "B" 4 none sampleUser sampleGeo sampleUploader
      ⟨[], 0⟩ 7).1 ("/reviews?selected=" ++ objectIdOfNat 0) (by rfl)⟩

/-- C10: a rating outside `[0,5]` raises the 400 before any external call: the
effect trace is empty (no geocoding request, no upload, no insert) and the
collection is unchanged. -/
theorem create_review_bad_rating_no_effects (name address : String) (rating : Int)
    (images : Option (List (Option UFile))) (user : Bundle)
    (geo : String → List GeoEntry) (uploader : UFile → Option String)
    (db : DB) (now : Int) (h : rating < 0 ∨ rating > 5) :
    (create_review name address rating images user geo uploader db now).effects = [] ∧
    (create_review name address rating images user geo uploader db now).db = db ∧
    (create_review name address rating images user geo uploader db now).response
      = .error ⟨400, "La valoración debe estar entre 0 y 5"⟩ := by
  simp [create_review, if_pos h]

/-- C10 witness: rating 6 at a concrete request. -/
theorem create_review_bad_rating_no_effects_witness :
    (create_review "A" "B" 6 none sampleUser sampleGeo sampleUploader ⟨[], 0⟩ 7).effects = [] ∧
    (create_review "A" "B" 6 none sampleUser sampleGeo sampleUploader ⟨[], 0⟩ 7).db = ⟨[], 0⟩ ∧
    (create_review "A" "B" 6 none sampleUser sampleGeo sampleUploader ⟨[], 0⟩ 7).response
      = .error ⟨400, "La valoración debe estar entre 0 y 5"⟩ :=
  create_review_bad_rating_no_effects "A" "B" 6 none sampleUser sampleGeo sampleUploader
    ⟨[], 0⟩ 7 (by omega)

/-- C1: when the geocoder returns no result for the submitted address,
`POST /reviews` responds 400 and the collection is unchanged; and every document
in the collection after the request either was already there or carries both a
latitude and a longitude — a review is never persisted with an absent coordinate. -/
theorem create_review_geocode_guard (name address : String) (rating : Int)
    (images : Option (List (Option UFile))) (user : Bundle)
    (geo : String → List GeoEntry) (uploader : UFile → Option String)
    (db : DB) (now : Int) :
    (geo address = [] →
      errStatus (create_review name address rating images user geo uploader db now).response
        = some 400 ∧
      (create_review name address rating images user geo uploader db now).db = db) ∧
    ∀ r ∈ (create_review name address rating images user geo uploader db now).db.docs,
      r ∈ db.docs ∨ (r.doc.latitude.isSome ∧ r.doc.longitude.isSome) := by
  by_cases hr : rating < 0 ∨ rating > 5
  · refine ⟨fun _ => by simp [create_review, if_pos hr, errStatus], fun r hrr => ?_⟩
    simp only [create_review, if_pos hr] at hrr
    exact Or.inl hrr
  · cases hg : geo address with
    | nil =>
      refine ⟨fun _ => ?_, fun r hrr => ?_⟩
      · simp [create_review, if_neg hr, geocode_address, hg, errStatus]
      · simp only [create_review, if_neg hr, geocode_address, hg] at hrr
        simp at hrr
        exact Or.inl hrr
    | cons e rest =>
      refine ⟨fun h => absurd h (List.cons_ne_nil e rest), fun r hrr => ?_⟩
      simp only [create_review, if_neg hr, geocode_address, hg, insert_one] at hrr
      simp at hrr
      rcases hrr with h1 | h2
      · exact Or.inl h1
      · right
        simp [h2]

/-- C1 witness: a geocoder with zero results at a concrete request. -/
theorem create_review_geocode_guard_witness :
    errStatus (create_review "Cafe X" "123 Main St" 4 none sampleUser (fun _ => [])
        sampleUploader ⟨[], 0⟩ 7).response = some 400 ∧
    (create_review "Cafe X" "123 Main St" 4 none sampleUser (fun _ => [])
        sampleUploader ⟨[], 0⟩ 7).db = ⟨[], 0⟩ :=
  (create_review_geocode_guard "Cafe X" "123 Main St" 4 none sampleUser (fun _ => [])
    sampleUploader ⟨[], 0⟩ 7).1 rfl

/-- C3 counterexample: a session with no stored user claims, no stored expiry,
and a leftover token. `get_session_user` returns absent but does not clear the
session (the token entry survives), contradicting "otherwise it clears the
session and returns absent". -/
theorem get_session_user_no_clear_counterexample :
    (get_session_user ⟨none, some "t", none, none⟩ 0).1 = none ∧
    (get_session_user ⟨none, some "t", none, none⟩ 0).2 ≠ emptySession := by
  decide

/-- C3 (amended): `currentUser` returns the stored user claims when they are
present and the stored expiry is absent or still in the future; when the stored
expiry has been reached it clears the session and returns absent; when the
claims are absent but no stored expiry has been reached it returns absent
without touching the session. In particular, a session whose expiry equals or
precedes the current time is treated identically to no session: `currentUser`
returns absent and `requireUser` fails with 401. -/
theorem get_session_user_spec (s : Session) (now : Int) :
    (∀ e, s.token_exp = some e → now ≥ e →
      get_session_user s now = (none, emptySession) ∧
      errStatus (require_user s now).1 = some 401) ∧
    ((s.token_exp = none ∨ ∃ e, s.token_exp = some e ∧ now < e) →
      get_session_user s now = (s.user, s)) := by
  constructor
  · intro e he hnow
    refine ⟨by simp [get_session_user, he, hnow], ?_⟩
    cases hu : s.user with
    | none => simp [require_user, hu, errStatus]
    | some u =>
      by_cases ht : strTruthy s.token
      · simp [require_user, hu, ht, he, hnow, errStatus]
      · simp [require_user, hu, ht, errStatus]
  · rintro (he | ⟨e, he, hnow⟩)
    · simp [get_session_user, he]
    · simp [get_session_user, he, not_le.mpr hnow]

/-- C3 witness: an expired session (expiry 10, current time 10) and a live one. -/
theorem get_session_user_spec_witness :
    get_session_user ⟨some ⟨some "g-1", some "a@x", none, none⟩, some "tok", some 1, some 10⟩ 10
      = (none, emptySession) ∧
    errStatus (require_user
        ⟨some ⟨some "g-1", some "a@x", none, none⟩, some "tok", some 1, some 10⟩ 10).1
      = some 401 ∧
    get_session_user ⟨some ⟨some "g-1", some "a@x", none, none⟩, some "tok", some 1, some 10⟩ 5
      = (some ⟨some "g-1", some "a@x", none, none⟩,
         ⟨some ⟨some "g-1", some "a@x", none, none⟩, some "tok", some 1, some 10⟩) := by
  refine ⟨?_, ?_, ?_⟩
  · exact ((get_session_user_spec
      ⟨some ⟨some "g-1", some "a@x", none, none⟩, some "tok", some 1, some 10⟩ 10).1
        10 rfl (by omega)).1
  · exact ((get_session_user_spec
      ⟨some ⟨some "g-1", some "a@x", none, none⟩, some "tok", some 1, some 10⟩ 10).1
        10 rfl (by omega)).2
  · exact (get_session_user_spec
      ⟨some ⟨some "g-1", some "a@x", none, none⟩, some "tok", some 1, some 10⟩ 5).2
        (Or.inr ⟨10, rfl, by omega⟩)

/-- C4 counterexample: an expired session and an empty session both make
`require_user` fail with status 401, but the two `HTTPException` payloads differ
in their detail string — the detail is part of the response body, so the two
cases do not surface identically to the caller. -/
theorem require_user_details_differ :
    (require_user ⟨some ⟨none, none, none, none⟩, some "tok", none, some 10⟩ 10).1
      = .error ⟨401, "Token OAuth caducado"⟩ ∧
    (require_user ⟨none, none, none, none⟩ 10).1 = .error ⟨401, "No autenticado"⟩ ∧
    (⟨401, "Token OAuth caducado"⟩ : HttpErr) ≠ ⟨401, "No autenticado"⟩ := by
  refine ⟨?_, rfl, by decide⟩
  simp [require_user, strTruthy]

/-- C4 (amended): `requireUser` fails whenever no valid session exists, and
every failure carries status 401; the "no session" and "expired session" cases
both yield 401 but with different detail messages in the response (and only the
expired case clears the session). -/
theorem require_user_spec (s : Session) (now : Int) :
    ((s.user = none ∨ strTruthy s.token = false) →
      (require_user s now).1 = .error ⟨401, "No autenticado"⟩ ∧
      (require_user s now).2 = s) ∧
    (∀ u e, s.user = some u → strTruthy s.token = true → s.token_exp = some e → now ≥ e →
      (require_user s now).1 = .error ⟨401, "Token OAuth caducado"⟩ ∧
      (require_user s now).2 = emptySession) ∧
    (errStatus (require_user s now).1 = some 401 ∨ errStatus (require_user s now).1 = none) := by
  refine ⟨?_, ?_, ?_⟩
  · rintro (hu | ht)
    · simp [require_user, hu]
    · cases hu : s.user with
      | none => simp [require_user, hu]
      | some u => simp [require_user, hu, ht]
  · intro u e hu ht he hnow
    simp [require_user, hu, ht, he, hnow]
  · cases hu : s.user with
    | none => simp [require_user, hu, errStatus]
    | some u =>
      by_cases ht : strTruthy s.token
      · cases he : s.token_exp with
        | none => simp [require_user, hu, ht, he, errStatus]
        | some e =>
          by_cases hnow : now ≥ e
          · simp [require_user, hu, ht, he, hnow, errStatus]
          · simp [require_user, hu, ht, he, hnow, errStatus]
      · simp [require_user, hu, ht, errStatus]

/-- C4 witness: the no-session and the expired-session failures, concretely. -/
theorem require_user_spec_witness :
    (require_user ⟨none, none, none, none⟩ 10).1 = .error ⟨401, "No autenticado"⟩ ∧
    (require_user ⟨none, none, none, none⟩ 10).2 = ⟨none, none, none, none⟩ ∧
    (require_user ⟨some ⟨none, none, none, none⟩, some "tok", none, some 10⟩ 10).1
      = .error ⟨401, "Token OAuth caducado"⟩ ∧
    (require_user ⟨some ⟨none, none, none, none⟩, some "tok", none, some 10⟩ 10).2
      = emptySession := by
  refine ⟨?_, ?_, ?_, ?_⟩
  · exact ((require_user_spec ⟨none, none, none, none⟩ 10).1 (Or.inl rfl)).1
  · exact ((require_user_spec ⟨none, none, none, none⟩ 10).1 (Or.inl rfl)).2
  · exact ((require_user_spec ⟨some ⟨none, none, none, none⟩, some "tok", none, some 10⟩
      10).2.1 ⟨none, none, none, none⟩ 10 rfl (by decide) rfl (by omega)).1
  · exact ((require_user_spec ⟨some ⟨none, none, none, none⟩, some "tok", none, some 10⟩
      10).2.1 ⟨none, none, none, none⟩ 10 rfl (by decide) rfl (by omega)).2

/-- A sample stored document with a given creation timestamp. -/
def sampleDoc (oid : String) (t : Int) : StoredReview :=
  ⟨oid, ⟨"n" ++ oid, "a", some 40, some (-3), 3, some "ada@example.com", some "Ada",
    some "tok", some 1, some 1000, [], t⟩⟩

/-- Inserting into a sorted run is a permutation of consing. -/
theorem insertDesc_perm (x : StoredReview) (l : List StoredReview) :
    (insertDesc x l).Perm (x :: l) := by
  induction l with
  | nil => exact List.Perm.refl _
  | cons y ys ih =>
    by_cases h : y.doc.created_at ≤ x.doc.created_at
    · rw [insertDesc, if_pos h]
    · rw [insertDesc, if_neg h]
      exact (ih.cons y).trans (List.Perm.swap x y ys)

/-- `sortDesc` permutes the collection: every document appears, none is
filtered out and none is added. -/
theorem sortDesc_perm (l : List StoredReview) : (sortDesc l).Perm l := by
  induction l with
  | nil => exact List.Perm.refl _
  | cons x xs ih => exact (insertDesc_perm x (sortDesc xs)).trans (ih.cons x)

/-- Inserting into a run sorted by `created_at` descending keeps it sorted. -/
theorem insertDesc_sorted (x : StoredReview) (l : List StoredReview)
    (h : List.Sorted (fun a b => b.doc.created_at ≤ a.doc.created_at) l) :
    List.Sorted (fun a b => b.doc.created_at ≤ a.doc.created_at) (insertDesc x l) := by
  induction l with
  | nil => simp [insertDesc]
  | cons y ys ih =>
    rcases List.sorted_cons.mp h with ⟨hy, hys⟩
    by_cases hxy : y.doc.created_at ≤ x.doc.created_at
    · rw [insertDesc, if_pos hxy]
      refine List.sorted_cons.mpr ⟨?_, h⟩
      intro b hb
      rcases List.mem_cons.mp hb with rfl | hb
      · exact hxy
      · exact (hy b hb).trans hxy
    · rw [insertDesc, if_neg hxy]
      refine List.sorted_cons.mpr ⟨?_, ih hys⟩
      intro b hb
      rcases List.mem_cons.mp ((insertDesc_perm x ys).mem_iff.mp hb) with rfl | hb
      · omega
      · exact hy b hb

/-- `sortDesc` sorts by `created_at` descending. -/
theorem sortDesc_sorted (l : List StoredReview) :
    List.Sorted (fun a b => b.doc.created_at ≤ a.doc.created_at) (sortDesc l) := by
  induction l with
  | nil => simp [sortDesc]
  | cons x xs ih => exact insertDesc_sorted x (sortDesc xs) ih

/-- C5: for every repository state, `GET /reviews` returns every stored review —
the rendered list is a permutation of the serialized collection, with no
pagination and no filtering — ordered by creation timestamp descending; in
particular, for reviews inserted (in order) at times `t1 < t2 < t3`, the list
is `t3, t2, t1`. -/
theorem list_reviews_newest_first (db : DB) (sel : Option String)
    (d1 d2 d3 : StoredReview) (n : Nat)
    (h12 : d1.doc.created_at < d2.doc.created_at)
    (h23 : d2.doc.created_at < d3.doc.created_at) :
    (list_reviews db sel).reviews.Perm (db.docs.map serialize_review) ∧
    List.Sorted (fun a b : Serialized => b.created_at ≤ a.created_at)
      (list_reviews db sel).reviews ∧
    (list_reviews ⟨[d1, d2, d3], n⟩ none).reviews
      = [serialize_review d3, serialize_review d2, serialize_review d1] := by
  have h32 : ¬ (d3.doc.created_at ≤ d2.doc.created_at) := by omega
  have h31 : ¬ (d3.doc.created_at ≤ d1.doc.created_at) := by omega
  have h21 : ¬ (d2.doc.created_at ≤ d1.doc.created_at) := by omega
  refine ⟨?_, ?_, ?_⟩
  · exact (sortDesc_perm db.docs).map serialize_review
  · exact List.Pairwise.map serialize_review (fun a b hab => hab) (sortDesc_sorted db.docs)
  · simp [list_reviews, sortDesc, insertDesc, h32, h31, h21]

/-- C5 witness: a two-document repository (full list, newest first) and three
concrete documents inserted at times 1 < 2 < 3 listed as 3, 2, 1. -/
theorem list_reviews_newest_first_witness :
    (list_reviews ⟨[sampleDoc "a" 1, sampleDoc "e" 5], 2⟩ none).reviews.Perm
      ([sampleDoc "a" 1, sampleDoc "e" 5].map serialize_review) ∧
    List.Sorted (fun a b : Serialized => b.created_at ≤ a.created_at)
      (list_reviews ⟨[sampleDoc "a" 1, sampleDoc "e" 5], 2⟩ none).reviews ∧
    (list_reviews ⟨[sampleDoc "a" 1, sampleDoc "b" 2, sampleDoc "c" 3], 3⟩ none).reviews
      = [serialize_review (sampleDoc "c" 3), serialize_review (sampleDoc "b" 2),
         serialize_review (sampleDoc "a" 1)] :=
  list_reviews_newest_first ⟨[sampleDoc "a" 1, sampleDoc "e" 5], 2⟩ none
    (sampleDoc "a" 1) (sampleDoc "b" 2) (sampleDoc "c" 3) 3 (by decide) (by decide)

/-- C7: on `GET /reviews/{id}`, a syntactically malformed identifier yields 400
(not 404); a well-formed identifier with no matching document yields 404; and a
well-formed identifier with a match returns the serialized review. -/
theorem get_review_dispatch (review_id : String) (db : DB) :
    (isValidObjectId review_id = false →
      get_review review_id db = .error ⟨400, "Identificador inválido"⟩) ∧
    (isValidObjectId review_id = true → find_one db review_id = none →
      get_review review_id db = .error ⟨404, "Reseña no encontrada"⟩) ∧
    ∀ r, isValidObjectId review_id = true → find_one db review_id = some r →
      get_review review_id db = .ok (serialize_review r) := by
  refine ⟨fun hv => ?_, fun hv hf => ?_, fun r hv hf => ?_⟩
  · simp [get_review, hv]
  · simp [get_review, hv, hf]
  · simp [get_review, hv, hf]

/-- C7 witness: a malformed id (400), a well-formed absent id (404), and a
well-formed present id (the serialized review), against a one-document
collection. -/
theorem get_review_dispatch_witness :
    get_review "zzz" ⟨[sampleDoc (objectIdOfNat 0) 1], 1⟩
      = .error ⟨400, "Identificador inválido"⟩ ∧
    get_review (objectIdOfNat 1) ⟨[sampleDoc (objectIdOfNat 0) 1], 1⟩
      = .error ⟨404, "Reseña no encontrada"⟩ ∧
    get_review (objectIdOfNat 0) ⟨[sampleDoc (objectIdOfNat 0) 1], 1⟩
      = .ok (serialize_review (sampleDoc (objectIdOfNat 0) 1)) :=
  ⟨(get_review_dispatch "zzz" ⟨[sampleDoc (objectIdOfNat 0) 1], 1⟩).1 (by decide),
   (get_review_dispatch (objectIdOfNat 1) ⟨[sampleDoc (objectIdOfNat 0) 1], 1⟩).2.1
     (by decide) (by decide),
   (get_review_dispatch (objectIdOfNat 0) ⟨[sampleDoc (objectIdOfNat 0) 1], 1⟩).2.2
     (sampleDoc (objectIdOfNat 0) 1) (by decide) (by decide)⟩

/-- Skipped entries (falsy file or falsy filename) contribute nothing to the
upload loop, wherever they sit in the collection. -/
theorem uploadLoop_skip (uploader : UFile → Option String) (pre post : List (Option UFile))
    (f? : Option UFile) (h : f? = none ∨ ∃ f, f? = some f ∧ f.filename = "") :
    uploadLoop uploader (pre ++ f? :: post) = uploadLoop uploader (pre ++ post) := by
  induction pre with
  | nil =>
    rcases h with h | ⟨f, hf, hname⟩
    · simp [h, uploadLoop]
    · simp [hf, uploadLoop, hname]
  | cons a pre ih =>
    cases a with
    | none => simpa [uploadLoop] using ih
    | some f =>
      by_cases hf : f.filename = ""
      · simpa [uploadLoop, hf] using ih
      · cases hu : uploader f with
        | none => simpa [uploadLoop, hf, hu] using ih
        | some u =>
          by_cases hu0 : u = ""
          · simpa [uploadLoop, hf, hu, hu0] using ih
          · simp [uploadLoop, hf, hu, hu0, ih]

/-- When every upload yields a truthy `secure_url`, the loop returns exactly the
accepted files' URLs in order. -/
theorem uploadLoop_total (g : UFile → String) (hg : ∀ f, g f ≠ "")
    (fs : List (Option UFile)) :
    uploadLoop (fun f => some (g f)) fs = (acceptedFiles fs).map g := by
  induction fs with
  | nil => rfl
  | cons a rest ih =>
    cases a with
    | none => simpa [uploadLoop, acceptedFiles] using ih
    | some f =>
      by_cases hf : f.filename = ""
      · simpa [uploadLoop, acceptedFiles, hf] using ih
      · simp [uploadLoop, acceptedFiles, hf, hg f, ih]

/-- C8: an absent or empty collection yields no URLs; an entry that is a falsy
file or has a falsy filename is silently skipped (removing it changes nothing);
and when the media host returns a URL for every upload, the result is those
URLs in the same order as the accepted uploads, skipped files leaving no entry. -/
theorem upload_images_spec (uploader : UFile → Option String) (g : UFile → String)
    (fs : List (Option UFile)) (hg : ∀ f, g f ≠ "") :
    upload_images uploader none = [] ∧
    upload_images uploader (some []) = [] ∧
    (∀ pre post f?, (f? = none ∨ ∃ f, f? = some f ∧ f.filename = "") →
      upload_images uploader (some (pre ++ f? :: post))
        = upload_images uploader (some (pre ++ post))) ∧
    upload_images (fun f => some (g f)) (some fs) = (acceptedFiles fs).map g := by
  refine ⟨rfl, rfl, fun pre post f? h => ?_, ?_⟩
  · simpa [upload_images] using uploadLoop_skip uploader pre post f? h
  · simpa [upload_images] using uploadLoop_total g hg fs

/-- C8 witness: a collection holding a falsy file, a file with an empty
filename, and two accepted files, with a host returning the URL `"u"`. -/
theorem upload_images_spec_witness :
    upload_images sampleUploader none = [] ∧
    upload_images sampleUploader (some []) = [] ∧
    upload_images sampleUploader (some ([some ⟨"a", "x"⟩] ++ some ⟨"", "y"⟩ :: []))
      = upload_images sampleUploader (some ([some ⟨"a", "x"⟩] ++ [])) ∧
    upload_images (fun f => some ((fun _ => "u") f))
        (some [none, some ⟨"", "y"⟩, some ⟨"a", "x"⟩, some ⟨"b", "z"⟩])
      = (acceptedFiles [none, some ⟨"", "y"⟩, some ⟨"a", "x"⟩, some ⟨"b", "z"⟩]).map
          (fun _ => "u") := by
  have T := upload_images_spec sampleUploader (fun _ => "u")
    [none, some ⟨"", "y"⟩, some ⟨"a", "x"⟩, some ⟨"b", "z"⟩]
    (by intro f; show ("u" : String) ≠ ""; decide)
  exact ⟨T.1, T.2.1,
    T.2.2.1 [some ⟨"a", "x"⟩] [] (some ⟨"", "y"⟩) (Or.inr ⟨⟨"", "y"⟩, rfl, rfl⟩),
    T.2.2.2⟩

/-- C9: with a `selected` identifier supplied, `GET /reviews` renders a 200 page
in every case; the identifier is resolved against the in-memory list first; when
it misses and is well-formed the handler falls back to a direct repository
lookup; when it misses and is malformed (the `ObjectId` constructor raising),
the failure is treated as "no selection", not as an error response. -/
theorem list_reviews_selected_resolution (db : DB) (selected : Option String) :
    (list_reviews db selected).status = 200 ∧
    (∀ r, strTruthy selected = true →
      ((sortDesc db.docs).map serialize_review).find? (fun x => x.id = selected.getD "")
        = some r →
      (list_reviews db selected).selected_review = some r) ∧
    (strTruthy selected = true →
      ((sortDesc db.docs).map serialize_review).find? (fun x => x.id = selected.getD "")
        = none →
      isValidObjectId (selected.getD "") = true →
      (list_reviews db selected).selected_review
        = (find_one db (selected.getD "")).map serialize_review) ∧
    (strTruthy selected = true →
      ((sortDesc db.docs).map serialize_review).find? (fun x => x.id = selected.getD "")
        = none →
      isValidObjectId (selected.getD "") = false →
      (list_reviews db selected).selected_review = none) := by
  refine ⟨rfl, fun r ht hf => ?_, fun ht hf hv => ?_, fun ht hf hv => ?_⟩
  · simp [list_reviews, ht, hf]
  · cases hdb : find_one db (selected.getD "") <;>
      simp [list_reviews, ht, hf, hv, hdb]
  · simp [list_reviews, ht, hf, hv]

/-- C9 witness: a malformed `selected` value against a one-document collection:
the page still renders 200 with no selection. -/
theorem list_reviews_selected_resolution_witness :
    (list_reviews ⟨[sampleDoc (objectIdOfNat 0) 1], 1⟩ (some "!!!")).status = 200 ∧
    (list_reviews ⟨[sampleDoc (objectIdOfNat 0) 1], 1⟩ (some "!!!")).selected_review
      = none :=
  ⟨(list_reviews_selected_resolution ⟨[sampleDoc (objectIdOfNat 0) 1], 1⟩ (some "!!!")).1,
   (list_reviews_selected_resolution ⟨[sampleDoc (objectIdOfNat 0) 1], 1⟩
      (some "!!!")).2.2.2 (by decide) (by decide) (by decide)⟩

/-- Every character `hexChar` produces is a hex digit. -/
theorem isHexChar_hexChar (d : Nat) : isHexChar (hexChar d) = true := by
  have h : d % 16 < 16 := Nat.mod_lt _ (by omega)
  unfold hexChar
  generalize hm : d % 16 = m at h ⊢
  interval_cases m <;> decide

/-- Every generated `ObjectId` string is a valid 24-character hex id. -/
theorem isValidObjectId_objectIdOfNat (n : Nat) :
    isValidObjectId (objectIdOfNat n) = true := by
  simp only [isValidObjectId, objectIdOfNat, decide_eq_true_eq]
  constructor
  · simp [String.length]
  · show (((List.range 24).map fun i => hexChar (n / 16 ^ (23 - i))).all isHexChar) = true
    simp only [List.all_eq_true]
    intro c hc
    rcases List.mem_map.mp hc with ⟨i, _, hi⟩
    exact hi ▸ isHexChar_hexChar _

/-- Appending a document whose id is fresh makes it the unique `find?` hit. -/
theorem find_fresh_append (docs : List StoredReview) (x : StoredReview)
    (h : ∀ r ∈ docs, r.id ≠ x.id) :
    (docs ++ [x]).find? (fun r => r.id = x.id) = some x := by
  induction docs with
  | nil => simp [List.find?]
  | cons a as ih =>
    have ha : ¬ (a.id = x.id) := h a (List.mem_cons_self a as)
    rw [List.cons_append, List.find?_cons_of_neg _ (by simpa using ha)]
    exact ih fun r hr => h r (List.mem_cons_of_mem a hr)

/-- C6: a review created via `POST /reviews` with name `"Cafe X"`, address
`"123 Main St"`, rating 4 and no image files redirects to the new identifier,
and fetching that identifier via `GET /reviews/{id}` returns the same name,
address, rating 4, and an empty image list. -/
theorem create_review_round_trip (user : Bundle) (geo : String → List GeoEntry)
    (uploader : UFile → Option String) (db : DB) (now : Int)
    (e : GeoEntry) (rest : List GeoEntry) (hgeo : geo "123 Main St" = e :: rest)
    (hfresh : ∀ r ∈ db.docs, r.id ≠ objectIdOfNat db.nextId) :
    (create_review "Cafe X" "123 Main St" 4 none user geo uploader db now).response
      = .ok ("/reviews?selected=" ++ objectIdOfNat db.nextId) ∧
    get_review (objectIdOfNat db.nextId)
        (create_review "Cafe X" "123 Main St" 4 none user geo uploader db now).db
      = .ok ⟨objectIdOfNat db.nextId, "Cafe X", "123 Main St", some e.lat, some e.lon, 4,
          user.email, user.name, user.token, user.iat, user.exp, [], now⟩ := by
  have hdb : (create_review "Cafe X" "123 Main St" 4 none user geo uploader db now).db
      = ⟨db.docs ++ [⟨objectIdOfNat db.nextId,
          ⟨"Cafe X", "123 Main St", some e.lat, some e.lon, 4, user.email, user.name,
           user.token, user.iat, user.exp, [], now⟩⟩], db.nextId + 1⟩ := by
    simp [create_review, geocode_address, hgeo, upload_images, insert_one]
  refine ⟨by simp [create_review, geocode_address, hgeo, insert_one], ?_⟩
  rw [hdb]
  have hfind : find_one ⟨db.docs ++ [⟨objectIdOfNat db.nextId,
      ⟨"Cafe X", "123 Main St", some e.lat, some e.lon, 4, user.email, user.name,
       user.token, user.iat, user.exp, [], now⟩⟩], db.nextId + 1⟩ (objectIdOfNat db.nextId)
      = some ⟨objectIdOfNat db.nextId,
          ⟨"Cafe X", "123 Main St", some e.lat, some e.lon, 4, user.email, user.name,
           user.token, user.iat, user.exp, [], now⟩⟩ :=
    find_fresh_append db.docs
      ⟨objectIdOfNat db.nextId,
        ⟨"Cafe X", "123 Main St", some e.lat, some e.lon, 4, user.email, user.name,
         user.token, user.iat, user.exp, [], now⟩⟩
      (fun r hr => hfresh r hr)
  simp [get_review, isValidObjectId_objectIdOfNat, hfind, serialize_review]

/-- C6 witness: the round trip from the empty collection with a geocoder
returning one result. -/
theorem create_review_round_trip_witness :
    (create_review "Cafe X" "123 Main St" 4 none sampleUser sampleGeo sampleUploader
        ⟨[], 0⟩ 7).response = .ok ("/reviews?selected=" ++ objectIdOfNat 0) ∧
    get_review (objectIdOfNat 0)
        (create_review "Cafe X" "123 Main St" 4 none sampleUser sampleGeo sampleUploader
          ⟨[], 0⟩ 7).db
      = .ok ⟨objectIdOfNat 0, "Cafe X", "123 Main St", some 40, some (-3), 4,
          some "ada@example.com", some "Ada", some "tok", some 1, some 1000, [], 7⟩ :=
  create_review_round_trip sampleUser sampleGeo sampleUploader ⟨[], 0⟩ 7 ⟨40, -3⟩ [] rfl
    (by simp)
